import Mathlib

/-!
Verification model of the AWS IoT MQTT client implemented in `src/test.h`
(class `AwsIot::AwsIotMqttClient`).  The client state, its public operations
(`Initialize`, `Connect`, `Disconnect`, `Subscribe`, `Unsubscribe`) and its
transport-event handlers (`HandleMqttEvent`, `HandleConnect`,
`HandleDisconnect`, `ResubscribePending`, `HandleData`) are translated as pure
functions over an explicit state record.  Calls into the external transport
(`esp_mqtt_client_*`) and the FreeRTOS timer facility are modelled by Boolean
outcome parameters (oracles) supplied per call, and by instrumentation fields
that record the observable effect (`startCalls` counts `esp_mqtt_client_start`
invocations).  C strings are modelled as `List Char`; topic-buffer constants
`kMaxTopicLen` (from the class header, which is not part of the source tree)
are kept as an explicit parameter `maxLen`.  The 32-bit wrap of
`current_reconnect_delay_ms_ *= 2` is modelled by an explicit `% 2 ^ 32`.
-/

namespace AwsIot

/-- Configuration record `MqttConfig` as used by `src/test.h`.  The three PEM
pointers are `const char *` in the source; only their null-ness is observable
in the translated code paths, so they are modelled as presence Booleans. -/
structure MqttConfig where
  aws_endpoint : List Char
  client_id : List Char
  thing_name : List Char
  root_ca_pem : Bool
  device_cert_pem : Bool
  private_key_pem : Bool
  port : Nat
  rx_buffer_size : Nat
  tx_buffer_size : Nat
  base_reconnect_ms : Nat
  max_reconnect_ms : Nat
deriving DecidableEq

/-- One slot of the fixed-size `subscriptions_` array.  The callback is an
opaque `std::function`; only null-ness and identity matter to the claims, so
it is modelled as `Option Nat`. -/
structure Subscription where
  active : Bool
  pending_subscribe : Bool
  topic : List Char
  qos : Int
  callback : Option Nat
deriving DecidableEq

/-- A subscription slot as left by the constructor loop (lines 27-30 of
`src/test.h`): inactive, not pending.  Topic, qos, callback are given fixed
blank values (the C++ members are default-initialized). -/
def blankSub : Subscription :=
  { active := false, pending_subscribe := false, topic := [], qos := 0, callback := none }

/-- The mutable state of one `AwsIotMqttClient` instance.  `startCalls` is an
instrumentation counter for invocations of `esp_mqtt_client_start` (the
transport `Start` call); it is not a C++ member. -/
structure ClientState where
  initialized : Bool
  connected : Bool
  connecting : Bool
  disconnect_requested : Bool
  client_handle : Bool
  reconnect_timer_handle : Bool
  timer_armed : Bool
  current_reconnect_delay_ms : Nat
  subscriptions : List Subscription
  active_subscription_count : Int
  config : MqttConfig
  shadow_update_cb : Bool
  shadow_get_cb : Bool
  job_notify_cb : Bool
  on_connected_cb : Bool
  on_disconnected_cb : Bool
  startCalls : Nat
deriving DecidableEq

/-- First index of the `subscriptions_` scan loop satisfying `p` (the C code
scans by ascending index and breaks on the first hit). -/
def firstIdx (p : Subscription → Bool) : List Subscription → Option Nat
  | [] => none
  | sub :: rest => if p sub then some 0 else (firstIdx p rest).map (· + 1)

/-- Replace slot `i` by `f slot`, leaving every other slot unchanged
(`subscriptions_[i] = f(subscriptions_[i])`). -/
def modifySlot (subs : List Subscription) (i : Nat) (f : Subscription → Subscription) :
    List Subscription :=
  match subs[i]? with
  | some sub => subs.set i (f sub)
  | none => subs

/-- `CleanupMqttClient` (lines 96-113): stop/destroy the handle if present,
then unconditionally clear `connected_` and `connecting_`. -/
def CleanupMqttClient (s : ClientState) : ClientState :=
  let s := if s.client_handle then { s with client_handle := false } else s
  { s with connected := false, connecting := false }

/-- `InitializeMqttClient` (lines 59-94).  `initOk` is the outcome of
`esp_mqtt_client_init`, `registerOk` of `esp_mqtt_client_register_event`
(failure of the latter destroys the fresh handle). -/
def InitializeMqttClient (s : ClientState) (initOk registerOk : Bool) :
    Bool × ClientState :=
  let s := if s.client_handle then CleanupMqttClient s else s
  if !initOk then (false, s)
  else
    let s := { s with client_handle := true }
    if !registerOk then (false, { s with client_handle := false })
    else (true, s)

/-- `StopReconnectTimer` (lines 455-460): stops the timer only when a handle
exists and the timer is active. -/
def StopReconnectTimer (s : ClientState) : ClientState :=
  if s.reconnect_timer_handle && s.timer_armed then { s with timer_armed := false } else s

/-- `StartReconnectTimer` (lines 444-453).  `createOk` is the outcome of
`xTimerCreate` (failure returns early), `startOk` of `xTimerStart` (a
`xTimerChangePeriod` failure only logs). -/
def StartReconnectTimer (s : ClientState) (createOk startOk : Bool) : ClientState :=
  let r : Bool × ClientState :=
    if !s.reconnect_timer_handle then
      if !createOk then (false, s)
      else (true, { s with reconnect_timer_handle := true })
    else (true, s)
  if !r.1 then r.2
  else if startOk then { r.2 with timer_armed := true }
  else r.2

/-- The delay update of `ScheduleReconnect` (lines 465-467): double (32-bit
wrap), clamp into `[base_reconnect_ms, max_reconnect_ms]` exactly as the two
`if` statements do. -/
def scheduleDelay (cfg : MqttConfig) (d : Nat) : Nat :=
  let d2 := d * 2 % 2 ^ 32
  let d3 :=
    if d2 > cfg.max_reconnect_ms || d2 < cfg.base_reconnect_ms then cfg.max_reconnect_ms else d2
  if d3 < cfg.base_reconnect_ms then cfg.base_reconnect_ms else d3

/-- `ScheduleReconnect` (lines 462-469): stop any armed timer, update the
delay, re-arm. -/
def ScheduleReconnect (s : ClientState) (createOk startOk : Bool) : ClientState :=
  let s := StopReconnectTimer s
  let s := { s with
    current_reconnect_delay_ms := scheduleDelay s.config s.current_reconnect_delay_ms }
  StartReconnectTimer s createOk startOk

/-- `Initialize` (lines 40-57).  Note the source returns `true` when already
initialized, and validates only the three string fields and the three PEM
pointers (the port is not checked). -/
def Initialize (cfg : MqttConfig) (s : ClientState) : Bool × ClientState :=
  if s.initialized then (true, s)
  else if cfg.aws_endpoint.isEmpty || cfg.client_id.isEmpty || cfg.thing_name.isEmpty
      || !cfg.root_ca_pem || !cfg.device_cert_pem || !cfg.private_key_pem then
    (false, s)
  else
    (true, { s with config := cfg, initialized := true, disconnect_requested := false })

/-- `Connect` (lines 115-148).  `initOk`/`registerOk` feed
`InitializeMqttClient`; `startOk` is the outcome of `esp_mqtt_client_start`,
whose invocation increments the `startCalls` instrumentation counter. -/
def Connect (s : ClientState) (initOk registerOk startOk : Bool) : Bool × ClientState :=
  if !s.initialized then (false, s)
  else if s.connected || s.connecting then (!s.connected, s)
  else if s.disconnect_requested then (false, s)
  else
    let s := { s with connecting := true, disconnect_requested := false }
    let r := InitializeMqttClient s initOk registerOk
    if !r.1 then (false, { r.2 with connecting := false })
    else
      let s := { r.2 with startCalls := r.2.startCalls + 1 }
      if !startOk then
        let s := CleanupMqttClient s
        (false, { s with connecting := false })
      else
        let s := { s with current_reconnect_delay_ms := s.config.base_reconnect_ms }
        (true, StopReconnectTimer s)

/-- `Disconnect` (lines 150-159): latch the request flag, stop the timer,
tear the handle down. -/
def Disconnect (s : ClientState) : ClientState :=
  CleanupMqttClient (StopReconnectTimer { s with disconnect_requested := true })

/-- `Subscribe` (lines 215-262).  One scan finds the first active slot with a
matching topic, else the first free slot.  `sendOk` is the outcome of
`SubscribeInternal` when the client is connected. -/
def Subscribe (maxLen : Nat) (s : ClientState) (topic : List Char) (qos : Int)
    (cb : Option Nat) (sendOk : Bool) : Bool × ClientState :=
  if !s.initialized then (false, s)
  else if maxLen ≤ topic.length then (false, s)
  else
    let existing := firstIdx (fun sub => sub.active && sub.topic == topic) s.subscriptions
    let available := firstIdx (fun sub => !sub.active) s.subscriptions
    let target : Option (Nat × Bool) :=
      match existing, available with
      | some i, _ => some (i, false)
      | none, some i => some (i, true)
      | none, none => none
    match target with
    | none => (false, s)
    | some (i, isNew) =>
      let subs := modifySlot s.subscriptions i (fun sub =>
        let sub := { sub with qos := qos, callback := cb, pending_subscribe := true }
        if isNew then { sub with topic := topic.take (maxLen - 1), active := true } else sub)
      let s := { s with
        subscriptions := subs,
        active_subscription_count :=
          if isNew then s.active_subscription_count + 1 else s.active_subscription_count }
      if s.connected && s.client_handle then
        if sendOk then
          (true, { s with
            subscriptions :=
              modifySlot s.subscriptions i
                (fun sub => { sub with pending_subscribe := false }) })
        else (false, s)
      else (true, s)

/-- `Unsubscribe` (lines 274-302): clears the found slot (active, pending,
callback, topic) and decrements the counter before attempting the
transport-level unsubscribe; a failed transport call (`sendOk = false`) only
changes the return value. -/
def Unsubscribe (_maxLen : Nat) (s : ClientState) (topic : List Char) (sendOk : Bool) :
    Bool × ClientState :=
  if !s.initialized then (false, s)
  else
    match firstIdx (fun sub => sub.active && sub.topic == topic) s.subscriptions with
    | none => (false, s)
    | some i =>
      let subs := modifySlot s.subscriptions i (fun sub =>
        { sub with active := false, pending_subscribe := false, callback := none, topic := [] })
      let s := { s with
        subscriptions := subs,
        active_subscription_count := s.active_subscription_count - 1 }
      if s.connected && s.client_handle then
        if !sendOk then (false, s) else (true, s)
      else (true, s)

/-- The loop body of `ResubscribePending` applied from slot index `i`:
for each active pending slot whose `SubscribeInternal` outcome
(`oracle index`) is success, the pending flag is cleared; failures leave the
slot untouched. -/
def resubList (oracle : Nat → Bool) (i : Nat) : List Subscription → List Subscription
  | [] => []
  | sub :: rest =>
    (if sub.active && sub.pending_subscribe && oracle i then
      { sub with pending_subscribe := false }
    else sub) :: resubList oracle (i + 1) rest

/-- `ResubscribePending` (lines 367-376). -/
def ResubscribePending (s : ClientState) (oracle : Nat → Bool) : ClientState :=
  { s with subscriptions := resubList oracle 0 s.subscriptions }

/-- `HandleConnect` (lines 349-356): mark connected, clear the request flag,
reset the delay to base, stop the timer, resubscribe everything pending. -/
def HandleConnect (s : ClientState) (oracle : Nat → Bool) : ClientState :=
  let s := { s with
    connected := true, connecting := false, disconnect_requested := false,
    current_reconnect_delay_ms := s.config.base_reconnect_ms }
  ResubscribePending (StopReconnectTimer s) oracle

/-- `HandleDisconnect` (lines 358-365): drop the connection flags, mark every
active subscription pending, and either schedule a reconnect (unexpected
disconnect) or clean up after a manual request. -/
def HandleDisconnect (s : ClientState) (createOk startOk : Bool) : ClientState :=
  let s := { s with connected := false, connecting := false }
  let s := { s with subscriptions := s.subscriptions.map (fun sub =>
    if sub.active then { sub with pending_subscribe := true } else sub) }
  if !s.disconnect_requested then ScheduleReconnect s createOk startOk
  else if s.client_handle then CleanupMqttClient s
  else s

/-- The single handler invocation `HandleData` performs for one inbound
message (the `handled` flag in the source guarantees at most one). -/
inductive RouteResult where
  | shadowUpdate (ty payload : List Char)
  | shadowGet (ty payload : List Char)
  | jobNotify (jobId status payload : List Char)
  | generic (cb : Nat) (topic payload : List Char)
  | unhandled
deriving DecidableEq

/-- `HandleData` (lines 379-435): demultiplex an inbound topic.  The shadow
and jobs topic buffers are built by `snprintf` into `char[kMaxTopicLen]`
buffers, hence the `List.take (maxLen - 1)` truncation.  Shadow topics are
tried first, then the jobs notify topic and job update suffixes, and finally
the exact-match scan over the subscription registry. -/
def HandleData (maxLen : Nat) (s : ClientState) (topic payload : List Char) : RouteResult :=
  let shadowPfx :=
    ("$aws/things/".toList ++ s.config.thing_name ++ "/shadow/".toList).take (maxLen - 1)
  let step1 : Option RouteResult :=
    if shadowPfx.length < topic.length && shadowPfx.isPrefixOf topic then
      let sfx := topic.drop shadowPfx.length
      if ("update/".toList.isPrefixOf sfx && decide (7 < sfx.length)) ||
          ("delta".toList.isPrefixOf sfx && decide (sfx.length = 5)) then
        if s.shadow_update_cb then
          some (.shadowUpdate
            (if sfx.headD ' ' == 'd' then "delta".toList else sfx.drop 7) payload)
        else none
      else if "get/".toList.isPrefixOf sfx && decide (4 < sfx.length) then
        if s.shadow_get_cb then some (.shadowGet (sfx.drop 4) payload) else none
      else none
    else none
  match step1 with
  | some r => r
  | none =>
    let notifyTopic :=
      ("$aws/things/".toList ++ s.config.thing_name ++ "/jobs/notify-next".toList).take
        (maxLen - 1)
    let jobsPfx :=
      ("$aws/things/".toList ++ s.config.thing_name ++ "/jobs/".toList).take (maxLen - 1)
    let step2 : Option RouteResult :=
      if topic == notifyTopic then
        if s.job_notify_cb then
          some (.jobNotify "unknown_job_id".toList "QUEUED".toList payload)
        else none
      else if jobsPfx.length < topic.length && jobsPfx.isPrefixOf topic then
        let jsfx := topic.drop jobsPfx.length
        let acc := "/update/accepted".toList
        let rej := "/update/rejected".toList
        let idStatus : List Char × List Char :=
          if decide (acc.length < jsfx.length) && acc.isSuffixOf jsfx then
            (jsfx.take (jsfx.length - acc.length), "ACCEPTED".toList)
          else if decide (rej.length < jsfx.length) && rej.isSuffixOf jsfx then
            (jsfx.take (jsfx.length - rej.length), "REJECTED".toList)
          else ([], [])
        if !idStatus.1.isEmpty && s.job_notify_cb then
          some (.jobNotify idStatus.1 idStatus.2 payload)
        else none
      else none
    match step2 with
    | some r => r
    | none =>
      match s.subscriptions.find? (fun sub =>
          sub.active && sub.callback.isSome && topic == sub.topic) with
      | some sub => .generic (sub.callback.getD 0) topic payload
      | none => .unhandled

/-- Transport events as delivered to `HandleMqttEvent`; constructors carry the
oracle outcomes the corresponding handler consumes. -/
inductive TransportEvent where
  | beforeConnect
  | evConnected (oracle : Nat → Bool)
  | evDisconnected (createOk startOk : Bool)
  | subscribed
  | unsubscribed
  | published
  | dataEvent
  | evError (createOk startOk : Bool)
  | deleted
  | otherEvent

/-- `HandleMqttEvent` (lines 323-347): every event is dropped while
`disconnect_requested_` is latched; otherwise dispatch per event id. -/
def HandleMqttEvent (s : ClientState) (e : TransportEvent) : ClientState :=
  if s.disconnect_requested then s
  else
    match e with
    | .evConnected oracle => HandleConnect s oracle
    | .evDisconnected c k => HandleDisconnect s c k
    | .evError c k =>
      if s.connecting then { s with connecting := false }
      else if !s.connected then HandleDisconnect s c k
      else s
    | .deleted => { s with client_handle := false, connected := false, connecting := false }
    | _ => s

/-- One interaction with the client: a public API call, a reconnect-timer
tick (`ReconnectTimerCallbackStatic`, which calls `Connect`), or a transport
event. -/
inductive Op where
  | opInit (cfg : MqttConfig)
  | opConnect (initOk registerOk startOk : Bool)
  | opDisconnect
  | opSubscribe (topic : List Char) (qos : Int) (cb : Option Nat) (sendOk : Bool)
  | opUnsubscribe (topic : List Char) (sendOk : Bool)
  | opPublish
  | opSetConnectedCb
  | opSetDisconnectedCb
  | timerFire (initOk registerOk startOk : Bool)
  | transport (e : TransportEvent)

/-- State effect of one interaction.  `Publish` (lines 168-211) reads the
state but never writes it; the callback setters replace only the respective
callback member; a one-shot FreeRTOS timer disarms itself when it fires,
after which the tick callback runs `Connect`. -/
def stepOp (maxLen : Nat) (s : ClientState) : Op → ClientState
  | .opInit cfg => (Initialize cfg s).2
  | .opConnect a b c => (Connect s a b c).2
  | .opDisconnect => Disconnect s
  | .opSubscribe t q cb ok => (Subscribe maxLen s t q cb ok).2
  | .opUnsubscribe t ok => (Unsubscribe maxLen s t ok).2
  | .opPublish => s
  | .opSetConnectedCb => { s with on_connected_cb := true }
  | .opSetDisconnectedCb => { s with on_disconnected_cb := true }
  | .timerFire a b c => (Connect { s with timer_armed := false } a b c).2
  | .transport e => HandleMqttEvent s e

/-- Run a sequence of interactions. -/
def run (maxLen : Nat) (s : ClientState) : List Op → ClientState
  | [] => s
  | op :: ops => run maxLen (stepOp maxLen s op) ops

/-- The reconnect delays recorded right after each disconnect event that the
client treats as unexpected (`disconnect_requested_` clear), i.e. the delays
`ScheduleReconnect` arms across a run. -/
def disconnectDelays (maxLen : Nat) (s : ClientState) : List Op → List Nat
  | [] => []
  | op :: ops =>
    let s' := stepOp maxLen s op
    let rest := disconnectDelays maxLen s' ops
    match op with
    | .transport (.evDisconnected _ _) =>
      if s.disconnect_requested then rest else s'.current_reconnect_delay_ms :: rest
    | _ => rest

/-- Number of armed reconnect timers: the client owns a single one-shot
FreeRTOS timer handle, so this is 1 when it is armed and 0 otherwise. -/
def armedCount (s : ClientState) : Nat :=
  if s.timer_armed then 1 else 0

/-- Whether a list of delays is monotonically non-decreasing. -/
def nondecreasing : List Nat → Bool
  | [] => true
  | [_] => true
  | a :: b :: rest => decide (a ≤ b) && nondecreasing (b :: rest)

/-! Concrete fixtures used by counterexamples and witnesses. -/

/-- A well-formed configuration (base delay 1000 ms, max 60000 ms). -/
def cfgA : MqttConfig :=
  { aws_endpoint := "example.iot".toList, client_id := "dev1".toList,
    thing_name := "t1".toList,
    root_ca_pem := true, device_cert_pem := true, private_key_pem := true,
    port := 8883, rx_buffer_size := 1024, tx_buffer_size := 1024,
    base_reconnect_ms := 1000, max_reconnect_ms := 60000 }

/-- A client that has not been initialized yet: all flags clear, two blank
subscription slots, configuration `cfgA`, delay at the base value. -/
def freshState : ClientState :=
  { initialized := false, connected := false, connecting := false,
    disconnect_requested := false, client_handle := false,
    reconnect_timer_handle := false, timer_armed := false,
    current_reconnect_delay_ms := 1000,
    subscriptions := List.replicate 2 blankSub,
    active_subscription_count := 0, config := cfgA,
    shadow_update_cb := false, shadow_get_cb := false, job_notify_cb := false,
    on_connected_cb := false, on_disconnected_cb := false, startCalls := 0 }

/-- A client with an established connection (as after `Initialize`,
`Connect`, and the `MQTT_EVENT_CONNECTED` event). -/
def connectedState : ClientState :=
  { freshState with
    initialized := true, connected := true, client_handle := true, startCalls := 1 }

/-- An active, already-resolved subscription on filter `a/b`. -/
def subAB : Subscription :=
  { active := true, pending_subscribe := false, topic := "a/b".toList, qos := 1,
    callback := some 7 }

/-- An active, already-resolved subscription on filter `c/d`. -/
def subCD : Subscription :=
  { active := true, pending_subscribe := false, topic := "c/d".toList, qos := 0,
    callback := some 8 }

/-- A connected client with all three convention handlers registered. -/
def routeState : ClientState :=
  { connectedState with
    shadow_update_cb := true, shadow_get_cb := true, job_notify_cb := true }

/-- A connected client holding one active subscription and one free slot. -/
def subbedState : ClientState :=
  { connectedState with subscriptions := [subAB, blankSub], active_subscription_count := 1 }

/-- A connected client whose two-slot registry is full. -/
def fullState : ClientState :=
  { connectedState with subscriptions := [subAB, subCD], active_subscription_count := 2 }

/-- The event sequence of the C1 counterexample.  It contains no successful
connect: two disconnect events in a row (each doubling the delay), then the
armed timer fires and `Connect` *starts* the transport successfully — which
already resets the delay to base at line 144 — but the attempt fails and the
transport reports a third unexpected disconnect (no connected event ever
arrives), which schedules only twice the base delay again. -/
def traceC1 : List Op :=
  [ .transport (.evDisconnected true true),
    .transport (.evDisconnected true true),
    .timerFire true true true,
    .transport (.evDisconnected true true) ]

/-! Helper lemmas. -/

/-- `StopReconnectTimer` only touches the armed flag. -/
theorem StopReconnectTimer_eq (s : ClientState) :
    ∃ ta, StopReconnectTimer s = { s with timer_armed := ta } := by
  refine ⟨(StopReconnectTimer s).timer_armed, ?_⟩
  unfold StopReconnectTimer
  split <;> rfl

/-- `StartReconnectTimer` only touches the timer handle and the armed flag. -/
theorem StartReconnectTimer_eq (s : ClientState) (c k : Bool) :
    ∃ th ta, StartReconnectTimer s c k
      = { s with reconnect_timer_handle := th, timer_armed := ta } := by
  refine ⟨(StartReconnectTimer s c k).reconnect_timer_handle,
    (StartReconnectTimer s c k).timer_armed, ?_⟩
  unfold StartReconnectTimer
  cases s.reconnect_timer_handle <;> cases c <;> cases k <;> rfl

theorem StopReconnectTimer_delay (s : ClientState) :
    (StopReconnectTimer s).current_reconnect_delay_ms = s.current_reconnect_delay_ms := by
  obtain ⟨ta, h⟩ := StopReconnectTimer_eq s
  rw [h]

theorem StopReconnectTimer_config (s : ClientState) :
    (StopReconnectTimer s).config = s.config := by
  obtain ⟨ta, h⟩ := StopReconnectTimer_eq s
  rw [h]

theorem StartReconnectTimer_delay (s : ClientState) (c k : Bool) :
    (StartReconnectTimer s c k).current_reconnect_delay_ms = s.current_reconnect_delay_ms := by
  obtain ⟨th, ta, h⟩ := StartReconnectTimer_eq s c k
  rw [h]

theorem StartReconnectTimer_config (s : ClientState) (c k : Bool) :
    (StartReconnectTimer s c k).config = s.config := by
  obtain ⟨th, ta, h⟩ := StartReconnectTimer_eq s c k
  rw [h]

theorem ResubscribePending_delay (s : ClientState) (oracle : Nat → Bool) :
    (ResubscribePending s oracle).current_reconnect_delay_ms
      = s.current_reconnect_delay_ms := rfl

/-- The clamped doubling of `ScheduleReconnect` never decreases the delay and
keeps it inside `[base, max]`, for any sane configuration. -/
theorem scheduleDelay_bounds (cfg : MqttConfig) (d : Nat)
    (hbm : cfg.base_reconnect_ms ≤ cfg.max_reconnect_ms)
    (hov : 2 * cfg.max_reconnect_ms < 2 ^ 32)
    (_hlo : cfg.base_reconnect_ms ≤ d) (hhi : d ≤ cfg.max_reconnect_ms) :
    d ≤ scheduleDelay cfg d ∧ cfg.base_reconnect_ms ≤ scheduleDelay cfg d ∧
      scheduleDelay cfg d ≤ cfg.max_reconnect_ms := by
  have h2d : d * 2 % 2 ^ 32 = d * 2 := Nat.mod_eq_of_lt (by omega)
  unfold scheduleDelay
  simp only [h2d, Bool.or_eq_true, decide_eq_true_eq]
  split_ifs <;> omega

/-- `ScheduleReconnect` sets the delay to the clamped double of the current
delay (relative to the stored configuration). -/
theorem ScheduleReconnect_delay (s : ClientState) (c k : Bool) :
    (ScheduleReconnect s c k).current_reconnect_delay_ms
      = scheduleDelay s.config s.current_reconnect_delay_ms ∧
    (ScheduleReconnect s c k).config = s.config := by
  unfold ScheduleReconnect
  simp only [StartReconnectTimer_delay, StartReconnectTimer_config,
    StopReconnectTimer_delay, StopReconnectTimer_config, and_self]

/-- `HandleDisconnect` on an unexpected disconnect reschedules with the
clamped doubled delay. -/
theorem HandleDisconnect_delay (s : ClientState) (c k : Bool)
    (hdr : s.disconnect_requested = false) :
    (HandleDisconnect s c k).current_reconnect_delay_ms
      = scheduleDelay s.config s.current_reconnect_delay_ms := by
  unfold HandleDisconnect
  simp only [hdr, Bool.not_false, if_pos]
  exact (ScheduleReconnect_delay _ c k).1

/-- `HandleConnect` resets the delay to the configured base. -/
theorem HandleConnect_delay (s : ClientState) (oracle : Nat → Bool) :
    (HandleConnect s oracle).current_reconnect_delay_ms = s.config.base_reconnect_ms := by
  unfold HandleConnect
  simp only [ResubscribePending_delay, StopReconnectTimer_delay]

/-- `CleanupMqttClient` only touches the handle and the two connection
flags, which end up cleared. -/
theorem CleanupMqttClient_eq (s : ClientState) :
    ∃ ch, CleanupMqttClient s
      = { s with client_handle := ch, connected := false, connecting := false } := by
  refine ⟨(CleanupMqttClient s).client_handle, ?_⟩
  unfold CleanupMqttClient
  split <;> rfl

/-- `Subscribe` only ever changes the registry and its counter. -/
theorem Subscribe_eq (maxLen : Nat) (s : ClientState) (t : List Char) (q : Int)
    (cb : Option Nat) (ok : Bool) :
    ∃ r subs cnt, Subscribe maxLen s t q cb ok
      = (r, { s with subscriptions := subs, active_subscription_count := cnt }) := by
  simp only [Subscribe]
  repeat' split
  all_goals exact ⟨_, _, _, rfl⟩

/-- `Unsubscribe` only ever changes the registry and its counter. -/
theorem Unsubscribe_eq (maxLen : Nat) (s : ClientState) (t : List Char) (ok : Bool) :
    ∃ r subs cnt, Unsubscribe maxLen s t ok
      = (r, { s with subscriptions := subs, active_subscription_count := cnt }) := by
  simp only [Unsubscribe]
  repeat' split
  all_goals exact ⟨_, _, _, rfl⟩

/-- The latched shape `Disconnect` leaves behind on an initialized client:
still initialized, disconnect requested, neither connected nor connecting,
timer disarmed. -/
def Latched (s : ClientState) : Prop :=
  s.initialized = true ∧ s.disconnect_requested = true ∧
    s.connected = false ∧ s.connecting = false ∧ s.timer_armed = false

/-- `Disconnect` latches an initialized client (the timer premise says a
timer can only be armed if its handle was created, which `StartReconnectTimer`
guarantees). -/
theorem Disconnect_latched (s : ClientState) (hinit : s.initialized = true)
    (hw : s.timer_armed = true → s.reconnect_timer_handle = true) :
    Latched (Disconnect s) := by
  unfold Disconnect
  obtain ⟨ta, hstop⟩ := StopReconnectTimer_eq { s with disconnect_requested := true }
  have hta : ta = false := by
    have hproj : (StopReconnectTimer { s with disconnect_requested := true }).timer_armed
        = ta := by rw [hstop]
    rw [← hproj]
    unfold StopReconnectTimer
    by_cases harm : s.timer_armed = true
    · simp [harm, hw harm]
    · simp at harm
      simp [harm]
  rw [hstop, hta]
  obtain ⟨ch, hcl⟩ := CleanupMqttClient_eq
    { s with disconnect_requested := true, timer_armed := false }
  rw [hcl]
  exact ⟨hinit, rfl, rfl, rfl, rfl⟩

/-- In a latched state `Connect` is rejected by the disconnect-requested
check and changes nothing. -/
theorem Connect_latched (s : ClientState) (a b c : Bool) (h : Latched s) :
    Connect s a b c = (false, s) := by
  obtain ⟨h1, h2, h3, h4, _⟩ := h
  unfold Connect
  simp [h1, h2, h3, h4]

/-- No interaction can undo the latched state: `Initialize` returns early on
an initialized client, `Connect` is rejected before the statement that would
clear the flag, the registry operations never touch it, and the event handler
drops every transport event while the flag is set. -/
theorem stepOp_latched (maxLen : Nat) (s : ClientState) (op : Op) (h : Latched s) :
    Latched (stepOp maxLen s op) := by
  obtain ⟨h1, h2, h3, h4, h5⟩ := h
  cases op with
  | opInit cfg => simp [stepOp, Initialize, h1]; exact ⟨h1, h2, h3, h4, h5⟩
  | opConnect a b c =>
    rw [stepOp, Connect_latched s a b c ⟨h1, h2, h3, h4, h5⟩]
    exact ⟨h1, h2, h3, h4, h5⟩
  | opDisconnect =>
    exact Disconnect_latched s h1 (fun harm => absurd harm (by simp [h5]))
  | opSubscribe t q cb ok =>
    obtain ⟨r, subs, cnt, heq⟩ := Subscribe_eq maxLen s t q cb ok
    rw [stepOp, heq]
    exact ⟨h1, h2, h3, h4, h5⟩
  | opUnsubscribe t ok =>
    obtain ⟨r, subs, cnt, heq⟩ := Unsubscribe_eq maxLen s t ok
    rw [stepOp, heq]
    exact ⟨h1, h2, h3, h4, h5⟩
  | opPublish => exact ⟨h1, h2, h3, h4, h5⟩
  | opSetConnectedCb => exact ⟨h1, h2, h3, h4, h5⟩
  | opSetDisconnectedCb => exact ⟨h1, h2, h3, h4, h5⟩
  | timerFire a b c =>
    rw [stepOp, Connect_latched { s with timer_armed := false } a b c
      ⟨h1, h2, h3, h4, rfl⟩]
    exact ⟨h1, h2, h3, h4, rfl⟩
  | transport e =>
    simp only [stepOp, HandleMqttEvent, h2, if_pos]
    exact ⟨h1, h2, h3, h4, h5⟩

/-- The latch persists across any run. -/
theorem run_latched (maxLen : Nat) (s : ClientState) (ops : List Op) (h : Latched s) :
    Latched (run maxLen s ops) := by
  induction ops generalizing s with
  | nil => exact h
  | cons op ops ih => exact ih _ (stepOp_latched maxLen s op h)

/-! Registry lemmas. -/

theorem StopReconnectTimer_subs (s : ClientState) :
    (StopReconnectTimer s).subscriptions = s.subscriptions := by
  obtain ⟨ta, h⟩ := StopReconnectTimer_eq s
  rw [h]

theorem StopReconnectTimer_count (s : ClientState) :
    (StopReconnectTimer s).active_subscription_count = s.active_subscription_count := by
  obtain ⟨ta, h⟩ := StopReconnectTimer_eq s
  rw [h]

theorem StartReconnectTimer_subs (s : ClientState) (c k : Bool) :
    (StartReconnectTimer s c k).subscriptions = s.subscriptions := by
  obtain ⟨th, ta, h⟩ := StartReconnectTimer_eq s c k
  rw [h]

theorem StartReconnectTimer_count (s : ClientState) (c k : Bool) :
    (StartReconnectTimer s c k).active_subscription_count
      = s.active_subscription_count := by
  obtain ⟨th, ta, h⟩ := StartReconnectTimer_eq s c k
  rw [h]

theorem CleanupMqttClient_subs (s : ClientState) :
    (CleanupMqttClient s).subscriptions = s.subscriptions := by
  obtain ⟨ch, h⟩ := CleanupMqttClient_eq s
  rw [h]

theorem CleanupMqttClient_count (s : ClientState) :
    (CleanupMqttClient s).active_subscription_count = s.active_subscription_count := by
  obtain ⟨ch, h⟩ := CleanupMqttClient_eq s
  rw [h]

theorem ScheduleReconnect_subs (s : ClientState) (c k : Bool) :
    (ScheduleReconnect s c k).subscriptions = s.subscriptions := by
  simp only [ScheduleReconnect, StartReconnectTimer_subs, StopReconnectTimer_subs]

theorem ScheduleReconnect_count (s : ClientState) (c k : Bool) :
    (ScheduleReconnect s c k).active_subscription_count
      = s.active_subscription_count := by
  simp only [ScheduleReconnect, StartReconnectTimer_count, StopReconnectTimer_count]

/-- The registry after `HandleDisconnect`: every active slot is marked
pending, nothing else changes. -/
theorem HandleDisconnect_subs (s : ClientState) (c k : Bool) :
    (HandleDisconnect s c k).subscriptions
      = s.subscriptions.map (fun sub =>
          if sub.active then { sub with pending_subscribe := true } else sub) := by
  simp only [HandleDisconnect]
  split
  · rw [ScheduleReconnect_subs]
  · split
    · rw [CleanupMqttClient_subs]
    · rfl

theorem HandleDisconnect_count (s : ClientState) (c k : Bool) :
    (HandleDisconnect s c k).active_subscription_count
      = s.active_subscription_count := by
  simp only [HandleDisconnect]
  split
  · rw [ScheduleReconnect_count]
  · split
    · rw [CleanupMqttClient_count]
    · rfl

theorem HandleConnect_subs (s : ClientState) (oracle : Nat → Bool) :
    (HandleConnect s oracle).subscriptions = resubList oracle 0 s.subscriptions := by
  simp only [HandleConnect, ResubscribePending]
  rw [StopReconnectTimer_subs]

theorem HandleConnect_count (s : ClientState) (oracle : Nat → Bool) :
    (HandleConnect s oracle).active_subscription_count
      = s.active_subscription_count := by
  simp only [HandleConnect, ResubscribePending]
  show (StopReconnectTimer _).active_subscription_count = _
  rw [StopReconnectTimer_count]

theorem resubList_length (oracle : Nat → Bool) (i : Nat) (l : List Subscription) :
    (resubList oracle i l).length = l.length := by
  induction l generalizing i with
  | nil => rfl
  | cons hd tl ih => simp [resubList, ih]

theorem resubList_getElem? (oracle : Nat → Bool) (i j : Nat) (l : List Subscription) :
    (resubList oracle i l)[j]? = (l[j]?).map (fun sub =>
      if sub.active && sub.pending_subscribe && oracle (i + j) then
        { sub with pending_subscribe := false }
      else sub) := by
  induction l generalizing i j with
  | nil => simp [resubList]
  | cons hd tl ih =>
    cases j with
    | zero => simp [resubList]
    | succ j =>
      simp only [resubList, List.getElem?_cons_succ]
      have h := ih (i + 1) j
      simp only [Nat.succ_add, Nat.add_succ] at h ⊢
      exact h

/-- `firstIdx` misses exactly when no element satisfies the predicate. -/
theorem firstIdx_eq_none (p : Subscription → Bool) (l : List Subscription)
    (h : ∀ x ∈ l, p x = false) : firstIdx p l = none := by
  induction l with
  | nil => rfl
  | cons hd tl ih =>
    have hhd := h hd (by simp)
    simp only [firstIdx, hhd, Bool.false_eq_true, if_false]
    rw [ih (fun x hx => h x (by simp [hx]))]
    rfl

/-- What a `firstIdx` hit means: the element at the index satisfies the
predicate and everything before it does not. -/
theorem firstIdx_spec (p : Subscription → Bool) (l : List Subscription) (i : Nat)
    (h : firstIdx p l = some i) :
    ∃ x, l[i]? = some x ∧ p x = true ∧
      ∀ j, j < i → ∀ y, l[j]? = some y → p y = false := by
  induction l generalizing i with
  | nil => simp [firstIdx] at h
  | cons hd tl ih =>
    by_cases hp : p hd = true
    · simp only [firstIdx, hp, if_true] at h
      obtain rfl : (0 : Nat) = i := Option.some.inj h
      exact ⟨hd, by simp, hp, fun j hj => by omega⟩
    · have hp' : p hd = false := by simpa using hp
      simp only [firstIdx, hp', Bool.false_eq_true, if_false] at h
      obtain ⟨i', hi', rfl⟩ := Option.map_eq_some'.mp h
      obtain ⟨x, hx, hpx, hpre⟩ := ih i' hi'
      refine ⟨x, by simpa using hx, hpx, ?_⟩
      intro j hj y hy
      cases j with
      | zero =>
        rw [List.getElem?_cons_zero] at hy
        obtain rfl : hd = y := Option.some.inj hy
        exact hp'
      | succ j => exact hpre j (by omega) y (by simpa using hy)

/-- Converse of `firstIdx_spec`. -/
theorem firstIdx_eq_some (p : Subscription → Bool) (l : List Subscription) (i : Nat)
    (x : Subscription) (hx : l[i]? = some x) (hpx : p x = true)
    (hpre : ∀ j, j < i → ∀ y, l[j]? = some y → p y = false) :
    firstIdx p l = some i := by
  induction l generalizing i with
  | nil => simp at hx
  | cons hd tl ih =>
    cases i with
    | zero =>
      rw [List.getElem?_cons_zero] at hx
      obtain rfl : hd = x := Option.some.inj hx
      simp [firstIdx, hpx]
    | succ i =>
      have hhd : p hd = false := hpre 0 (by omega) hd (by simp)
      simp only [firstIdx, hhd, Bool.false_eq_true, if_false]
      rw [ih i (by simpa using hx)
        (fun j hj y hy => hpre (j + 1) (by omega) y (by simpa using hy))]
      rfl

theorem modifySlot_length (l : List Subscription) (i : Nat)
    (f : Subscription → Subscription) : (modifySlot l i f).length = l.length := by
  unfold modifySlot
  cases h : l[i]? <;> simp [List.length_set]

theorem modifySlot_getElem_self (l : List Subscription) (i : Nat)
    (f : Subscription → Subscription) (x : Subscription) (h : l[i]? = some x) :
    (modifySlot l i f)[i]? = some (f x) := by
  unfold modifySlot
  rw [h]
  have hlt : i < l.length := by
    by_contra hge
    rw [List.getElem?_eq_none (by omega)] at h
    exact Option.noConfusion h
  exact List.getElem?_set_eq_of_lt (f x) hlt

theorem modifySlot_getElem_ne (l : List Subscription) (i : Nat)
    (f : Subscription → Subscription) (j : Nat) (h : j ≠ i) :
    (modifySlot l i f)[j]? = l[j]? := by
  unfold modifySlot
  cases l[i]? with
  | none => rfl
  | some x => exact List.getElem?_set_ne (Ne.symm h)

theorem modifySlot_modifySlot (l : List Subscription) (i : Nat)
    (f g : Subscription → Subscription) :
    modifySlot (modifySlot l i f) i g = modifySlot l i (fun x => g (f x)) := by
  cases h : l[i]? with
  | none => simp [modifySlot, h]
  | some x =>
    have hlt : i < l.length := by
      by_contra hge
      rw [List.getElem?_eq_none (by omega)] at h
      exact Option.noConfusion h
    simp [modifySlot, h, List.getElem?_set_eq_of_lt (f x) hlt, List.set_set]

/-- A `firstIdx` miss means no element satisfies the predicate. -/
theorem firstIdx_none_spec (p : Subscription → Bool) (l : List Subscription)
    (h : firstIdx p l = none) :
    ∀ (j : Nat) (y : Subscription), l[j]? = some y → p y = false := by
  induction l with
  | nil => intro j y hy; simp at hy
  | cons hd tl ih =>
    have hhd : p hd = false := by
      by_contra hp
      simp only [firstIdx, Bool.of_not_eq_false hp, if_true] at h
      exact Option.noConfusion h
    simp only [firstIdx, hhd, Bool.false_eq_true, if_false, Option.map_eq_none'] at h
    intro j y hy
    cases j with
    | zero =>
      rw [List.getElem?_cons_zero] at hy
      obtain rfl : hd = y := Option.some.inj hy
      exact hhd
    | succ j => exact ih h j y (by simpa using hy)

/-- `Subscribe` when the scan finds an existing active slot `i` for the
filter: the slot gets the new QoS and handler in place, the pending flag ends
clear only when connected and the send succeeded, the counter is untouched,
and the return value mirrors the transport outcome. -/
theorem Subscribe_found (maxLen : Nat) (s : ClientState) (topic : List Char)
    (q : Int) (cb : Option Nat) (ok : Bool) (i : Nat)
    (hinit : s.initialized = true) (hlen : topic.length < maxLen)
    (hex : firstIdx (fun sub => sub.active && sub.topic == topic) s.subscriptions
      = some i) :
    Subscribe maxLen s topic q cb ok
      = ((if s.connected && s.client_handle then ok else true),
         { s with
           subscriptions := modifySlot s.subscriptions i (fun sub =>
             { sub with
               qos := q, callback := cb,
               pending_subscribe := !(s.connected && s.client_handle && ok) }) }) := by
  cases hcc : s.connected && s.client_handle <;> cases ok <;>
    simp [Subscribe, hinit, hex, hcc, Nat.not_le.mpr hlen, modifySlot_modifySlot]

/-- `Subscribe` when the scan finds no existing slot but a free slot `i`:
the slot is populated (topic truncated to the buffer bound, marked active),
the counter is incremented, pending mirrors the transport outcome. -/
theorem Subscribe_fresh (maxLen : Nat) (s : ClientState) (topic : List Char)
    (q : Int) (cb : Option Nat) (ok : Bool) (i : Nat)
    (hinit : s.initialized = true) (hlen : topic.length < maxLen)
    (hex : firstIdx (fun sub => sub.active && sub.topic == topic) s.subscriptions
      = none)
    (hav : firstIdx (fun sub => !sub.active) s.subscriptions = some i) :
    Subscribe maxLen s topic q cb ok
      = ((if s.connected && s.client_handle then ok else true),
         { s with
           subscriptions := modifySlot s.subscriptions i (fun sub =>
             { sub with
               qos := q, callback := cb,
               pending_subscribe := !(s.connected && s.client_handle && ok),
               topic := topic.take (maxLen - 1), active := true }),
           active_subscription_count := s.active_subscription_count + 1 }) := by
  cases hcc : s.connected && s.client_handle <;> cases ok <;>
    simp [Subscribe, hinit, hex, hav, hcc, Nat.not_le.mpr hlen, modifySlot_modifySlot]

/-! Claim theorems. -/

/-- Claim C1, as stated, is false on the code: across consecutive unexpected
disconnects — with no successful connect anywhere in between — the reconnect
delay is not monotonically non-decreasing.  In the run `traceC1` from a
connected client (base delay 1000 ms, max 60000 ms), two unexpected
disconnect events double the delay to 2000 then 4000; the timer then fires
and the `Connect` attempt *starts* successfully, which already resets the
delay to the base at line 144, but the attempt fails: the transport delivers
a disconnect event without ever delivering a connected event (the run ends
not connected), and that third unexpected disconnect schedules only 2000 ms.
The recorded delays are 2000, 4000, 2000, so the decrease is forced purely by
the line-144 reset on a started-but-failed attempt, not by any successful
connect. -/
theorem C1_delay_not_monotone_counterexample :
    disconnectDelays 128 connectedState traceC1 = [2000, 4000, 2000] ∧
    nondecreasing (disconnectDelays 128 connectedState traceC1) = false ∧
    (run 128 connectedState traceC1).connected = false := by
  refine ⟨?_, ?_, ?_⟩
  · decide
  · decide
  · decide

/-- Claim C1 (amended): at each unexpected disconnect the reconnect delay is
replaced by its clamped double, which never decreases it and keeps it within
`[base, max]` (so the delays are monotone across consecutive unexpected
disconnects with no intervening connect attempt); every connected event
resets the delay to the configured base.  The reset also happens at each
successfully started `Connect` call, which is what breaks monotonicity in the
unamended claim. -/
theorem C1_backoff_amended (s : ClientState) (c k : Bool) (oracle : Nat → Bool)
    (hbm : s.config.base_reconnect_ms ≤ s.config.max_reconnect_ms)
    (hov : 2 * s.config.max_reconnect_ms < 2 ^ 32)
    (hlo : s.config.base_reconnect_ms ≤ s.current_reconnect_delay_ms)
    (hhi : s.current_reconnect_delay_ms ≤ s.config.max_reconnect_ms)
    (hdr : s.disconnect_requested = false) :
    (HandleDisconnect s c k).current_reconnect_delay_ms
        = scheduleDelay s.config s.current_reconnect_delay_ms ∧
    s.current_reconnect_delay_ms ≤ (HandleDisconnect s c k).current_reconnect_delay_ms ∧
    s.config.base_reconnect_ms ≤ (HandleDisconnect s c k).current_reconnect_delay_ms ∧
    (HandleDisconnect s c k).current_reconnect_delay_ms ≤ s.config.max_reconnect_ms ∧
    (HandleConnect s oracle).current_reconnect_delay_ms = s.config.base_reconnect_ms := by
  have hd := HandleDisconnect_delay s c k hdr
  have hb := scheduleDelay_bounds s.config s.current_reconnect_delay_ms hbm hov hlo hhi
  exact ⟨hd, by rw [hd]; exact hb.1, by rw [hd]; exact hb.2.1, by rw [hd]; exact hb.2.2,
    HandleConnect_delay s oracle⟩

/-- Witness for `C1_backoff_amended` at the concrete connected client. -/
theorem C1_backoff_amended_witness :
    (HandleDisconnect connectedState true true).current_reconnect_delay_ms
        = scheduleDelay connectedState.config connectedState.current_reconnect_delay_ms ∧
    connectedState.current_reconnect_delay_ms
        ≤ (HandleDisconnect connectedState true true).current_reconnect_delay_ms ∧
    connectedState.config.base_reconnect_ms
        ≤ (HandleDisconnect connectedState true true).current_reconnect_delay_ms ∧
    (HandleDisconnect connectedState true true).current_reconnect_delay_ms
        ≤ connectedState.config.max_reconnect_ms ∧
    (HandleConnect connectedState (fun _ => true)).current_reconnect_delay_ms
        = connectedState.config.base_reconnect_ms :=
  C1_backoff_amended connectedState true true (fun _ => true)
    (by decide) (by decide) (by decide) (by decide) rfl

/-- Claim C2, as stated, is false on the code: `Connect()` called while the
client is in the `Connecting` state executes `return !connected_` (line 123)
and thus returns success, not failure (the state is unchanged and no
transport `Start` happens, but the claimed failure return does not). -/
theorem C2_connect_in_progress_counterexample :
    Connect { freshState with initialized := true, connecting := true } true true true
      = (true, { freshState with initialized := true, connecting := true }) := by
  decide

/-- Claim C2 (amended): `Connect()` called while already `Connecting` or
`Connected` leaves the state untouched (in particular no additional transport
`Start` call is made) and returns `!connected_`: failure exactly when already
`Connected`, success when merely `Connecting`. -/
theorem C2_connect_busy_amended (s : ClientState) (a b c : Bool)
    (hinit : s.initialized = true) (hbusy : (s.connected || s.connecting) = true) :
    Connect s a b c = (!s.connected, s) := by
  unfold Connect
  simp [hinit, hbusy]

/-- Witness for `C2_connect_busy_amended` at a concretely connected client:
the call fails and changes nothing. -/
theorem C2_connect_busy_amended_witness :
    Connect connectedState true true true = (!connectedState.connected, connectedState) :=
  C2_connect_busy_amended connectedState true true true rfl rfl

/-- Claim C3: composing the disconnect handler with the connect handler (the
resubscribe pass, with `oracle` giving each slot's `SubscribeInternal`
outcome) keeps every previously active subscription present and active at its
slot with topic, QoS and handler intact; its pending flag is clear exactly
when the resubscribe send succeeded, and remains set for retry when it
failed.  The registry length and the subscription count are unchanged: no
entry disappears across the disconnect/reconnect cycle. -/
theorem C3_subscriptions_survive_reconnect (s : ClientState) (c k : Bool)
    (oracle : Nat → Bool) (i : Nat) (sub : Subscription)
    (hget : s.subscriptions[i]? = some sub) (hact : sub.active = true) :
    (HandleConnect (HandleDisconnect s c k) oracle).subscriptions[i]?
        = some { sub with pending_subscribe := !oracle i } ∧
    (HandleConnect (HandleDisconnect s c k) oracle).subscriptions.length
        = s.subscriptions.length ∧
    (HandleConnect (HandleDisconnect s c k) oracle).active_subscription_count
        = s.active_subscription_count := by
  refine ⟨?_, ?_, ?_⟩
  · rw [HandleConnect_subs, resubList_getElem?, HandleDisconnect_subs,
      List.getElem?_map, hget]
    simp only [Option.map_some', hact, if_true, Nat.zero_add]
    cases ho : oracle i <;> simp [ho, hact]
  · rw [HandleConnect_subs, resubList_length, HandleDisconnect_subs, List.length_map]
  · rw [HandleConnect_count, HandleDisconnect_count]

/-- Witness for `C3_subscriptions_survive_reconnect` with a failing
resubscribe send: the subscription survives, marked pending for retry. -/
theorem C3_subscriptions_survive_reconnect_witness :
    (HandleConnect (HandleDisconnect subbedState true true)
        (fun _ => false)).subscriptions[0]?
        = some { subAB with pending_subscribe := true } ∧
    (HandleConnect (HandleDisconnect subbedState true true)
        (fun _ => false)).subscriptions.length
        = subbedState.subscriptions.length ∧
    (HandleConnect (HandleDisconnect subbedState true true)
        (fun _ => false)).active_subscription_count
        = subbedState.active_subscription_count :=
  C3_subscriptions_survive_reconnect subbedState true true (fun _ => false) 0 subAB
    (by decide) rfl

/-- Claim C7: `Subscribe` of a distinct, well-sized filter on a full registry
(every slot active, none holding the filter) returns the capacity error and
returns the state entirely unchanged: count and every entry untouched. -/
theorem C7_capacity_error_leaves_registry (maxLen : Nat) (s : ClientState)
    (topic : List Char) (q : Int) (cb : Option Nat) (ok : Bool)
    (hinit : s.initialized = true) (hlen : topic.length < maxLen)
    (hfull : ∀ sub ∈ s.subscriptions, sub.active = true)
    (hdist : ∀ sub ∈ s.subscriptions, sub.topic ≠ topic) :
    Subscribe maxLen s topic q cb ok = (false, s) := by
  have hex : firstIdx (fun sub => sub.active && sub.topic == topic)
      s.subscriptions = none :=
    firstIdx_eq_none _ _ (fun x hx => by
      simp [beq_eq_false_iff_ne.mpr (hdist x hx)])
  have hav : firstIdx (fun sub => !sub.active) s.subscriptions = none :=
    firstIdx_eq_none _ _ (fun x hx => by simp [hfull x hx])
  simp [Subscribe, hinit, hex, hav, Nat.not_le.mpr hlen]

/-- Witness for `C7_capacity_error_leaves_registry` on a two-slot registry
holding two other filters. -/
theorem C7_capacity_error_leaves_registry_witness :
    Subscribe 128 fullState "e/f".toList 1 (some 9) true = (false, fullState) :=
  C7_capacity_error_leaves_registry 128 fullState "e/f".toList 1 (some 9) true
    rfl (by decide) (by decide) (by decide)

/-- Claim C10: `Unsubscribe` of an active filter clears the slot (active and
pending flags down, handler removed, topic zeroed) and decrements the count
unconditionally, before the transport call; when the transport-level
unsubscribe fails (`ok = false` while connected) the call returns false but
the slot stays cleared — the local removal is never rolled back. -/
theorem C10_unsubscribe_clears_before_transport (maxLen : Nat) (s : ClientState)
    (topic : List Char) (ok : Bool) (i : Nat) (sub : Subscription)
    (hinit : s.initialized = true)
    (hfind : firstIdx (fun sub => sub.active && sub.topic == topic) s.subscriptions
      = some i)
    (hget : s.subscriptions[i]? = some sub) :
    (Unsubscribe maxLen s topic ok).1
        = (if s.connected && s.client_handle then ok else true) ∧
    (Unsubscribe maxLen s topic ok).2.subscriptions[i]?
        = some { sub with
            active := false, pending_subscribe := false,
            callback := none, topic := [] } ∧
    (Unsubscribe maxLen s topic ok).2.active_subscription_count
        = s.active_subscription_count - 1 ∧
    (Unsubscribe maxLen s topic ok).2.subscriptions.length
        = s.subscriptions.length ∧
    (∀ j, j ≠ i → (Unsubscribe maxLen s topic ok).2.subscriptions[j]?
        = s.subscriptions[j]?) := by
  have hU : Unsubscribe maxLen s topic ok
      = ((if s.connected && s.client_handle then ok else true),
         { s with
           subscriptions := modifySlot s.subscriptions i (fun sub =>
             { sub with
               active := false, pending_subscribe := false,
               callback := none, topic := [] }),
           active_subscription_count := s.active_subscription_count - 1 }) := by
    cases hcc : s.connected && s.client_handle <;> cases ok <;>
      simp [Unsubscribe, hinit, hfind, hcc]
  refine ⟨by rw [hU], ?_, by rw [hU], ?_, ?_⟩
  · rw [hU]
    exact modifySlot_getElem_self _ _ _ _ hget
  · rw [hU]
    exact modifySlot_length _ _ _
  · intro j hj
    rw [hU]
    exact modifySlot_getElem_ne _ _ _ _ hj

/-- Witness for `C10_unsubscribe_clears_before_transport` on a connected
client whose transport unsubscribe fails: the call reports failure but the
slot is cleared and the count decremented. -/
theorem C10_unsubscribe_clears_before_transport_witness :
    (Unsubscribe 128 subbedState "a/b".toList false).1
        = (if subbedState.connected && subbedState.client_handle then false else true) ∧
    (Unsubscribe 128 subbedState "a/b".toList false).2.subscriptions[0]?
        = some { subAB with
            active := false, pending_subscribe := false,
            callback := none, topic := [] } ∧
    (Unsubscribe 128 subbedState "a/b".toList false).2.active_subscription_count
        = subbedState.active_subscription_count - 1 ∧
    (Unsubscribe 128 subbedState "a/b".toList false).2.subscriptions.length
        = subbedState.subscriptions.length ∧
    (∀ j, j ≠ 0 → (Unsubscribe 128 subbedState "a/b".toList false).2.subscriptions[j]?
        = subbedState.subscriptions[j]?) :=
  C10_unsubscribe_clears_before_transport 128 subbedState "a/b".toList false 0 subAB
    rfl (by decide) (by decide)

/-- For any configured thing name, an inbound message on the shadow topic
`$aws/things/<thing>/shadow/update/accepted` reaches the registered shadow
update handler with the subtype text after `update/`, i.e. `accepted`, and
the payload untouched.  The length premise keeps the `snprintf` topic buffers
below their truncation bound. -/
theorem HandleData_shadow_update_accepted (maxLen : Nat) (s : ClientState)
    (payload : List Char) (hcb1 : s.shadow_update_cb = true)
    (hlen : s.config.thing_name.length + 40 ≤ maxLen) :
    HandleData maxLen s
        ("$aws/things/".toList ++ s.config.thing_name
          ++ "/shadow/update/accepted".toList) payload
      = RouteResult.shadowUpdate "accepted".toList payload := by
  have hsplit : ("/shadow/update/accepted".toList : List Char)
      = "/shadow/".toList ++ "update/accepted".toList := by decide
  have htop : "$aws/things/".toList ++ s.config.thing_name
        ++ "/shadow/update/accepted".toList
      = ("$aws/things/".toList ++ s.config.thing_name ++ "/shadow/".toList)
          ++ "update/accepted".toList := by
    rw [hsplit, ← List.append_assoc]
  have hPlen : ("$aws/things/".toList ++ s.config.thing_name
        ++ "/shadow/".toList).length = s.config.thing_name.length + 20 := by
    rw [List.length_append, List.length_append]
    have h1 : ("$aws/things/".toList : List Char).length = 12 := by decide
    have h2 : ("/shadow/".toList : List Char).length = 8 := by decide
    omega
  have htake : ("$aws/things/".toList ++ s.config.thing_name
        ++ "/shadow/".toList).take (maxLen - 1)
      = "$aws/things/".toList ++ s.config.thing_name ++ "/shadow/".toList :=
    List.take_of_length_le (by rw [hPlen]; omega)
  have hlt : ("$aws/things/".toList ++ s.config.thing_name ++ "/shadow/".toList).length
      < (("$aws/things/".toList ++ s.config.thing_name ++ "/shadow/".toList)
          ++ "update/accepted".toList).length := by
    have h4 := List.length_append
      ("$aws/things/".toList ++ s.config.thing_name ++ "/shadow/".toList)
      ("update/accepted".toList)
    have h3 : ("update/accepted".toList : List Char).length = 15 := by decide
    omega
  have hpref : ("$aws/things/".toList ++ s.config.thing_name
        ++ "/shadow/".toList).isPrefixOf
      (("$aws/things/".toList ++ s.config.thing_name ++ "/shadow/".toList)
        ++ "update/accepted".toList) = true := by
    rw [List.isPrefixOf_iff_prefix]
    exact List.prefix_append _ _
  rw [htop]
  simp only [HandleData, htake, decide_eq_true hlt, hpref, Bool.and_self, if_true,
    List.drop_left, hcb1]
  rfl

/-- For any configured thing name, an inbound message on the jobs topic
`$aws/things/<thing>/jobs/job-7/update/rejected` reaches the registered jobs
handler with job id `job-7`, status `REJECTED`, payload untouched. -/
theorem HandleData_jobs_update_rejected (maxLen : Nat) (s : ClientState)
    (payload : List Char) (hcb2 : s.job_notify_cb = true)
    (hlen : s.config.thing_name.length + 40 ≤ maxLen) :
    HandleData maxLen s
        ("$aws/things/".toList ++ s.config.thing_name
          ++ "/jobs/job-7/update/rejected".toList) payload
      = RouteResult.jobNotify "job-7".toList "REJECTED".toList payload := by
  have hsplit : ("/jobs/job-7/update/rejected".toList : List Char)
      = "/jobs/".toList ++ "job-7/update/rejected".toList := by decide
  have htop : "$aws/things/".toList ++ s.config.thing_name
        ++ "/jobs/job-7/update/rejected".toList
      = ("$aws/things/".toList ++ s.config.thing_name ++ "/jobs/".toList)
          ++ "job-7/update/rejected".toList := by
    rw [hsplit, ← List.append_assoc]
  have hJlen : ("$aws/things/".toList ++ s.config.thing_name
        ++ "/jobs/".toList).length = s.config.thing_name.length + 18 := by
    rw [List.length_append, List.length_append]
    have h1 : ("$aws/things/".toList : List Char).length = 12 := by decide
    have h2 : ("/jobs/".toList : List Char).length = 6 := by decide
    omega
  have hPlen : ("$aws/things/".toList ++ s.config.thing_name
        ++ "/shadow/".toList).length = s.config.thing_name.length + 20 := by
    rw [List.length_append, List.length_append]
    have h1 : ("$aws/things/".toList : List Char).length = 12 := by decide
    have h2 : ("/shadow/".toList : List Char).length = 8 := by decide
    omega
  have hNlen : ("$aws/things/".toList ++ s.config.thing_name
        ++ "/jobs/notify-next".toList).length = s.config.thing_name.length + 29 := by
    rw [List.length_append, List.length_append]
    have h1 : ("$aws/things/".toList : List Char).length = 12 := by decide
    have h2 : ("/jobs/notify-next".toList : List Char).length = 17 := by decide
    omega
  have htakeP : ("$aws/things/".toList ++ s.config.thing_name
        ++ "/shadow/".toList).take (maxLen - 1)
      = "$aws/things/".toList ++ s.config.thing_name ++ "/shadow/".toList :=
    List.take_of_length_le (by rw [hPlen]; omega)
  have htakeN : ("$aws/things/".toList ++ s.config.thing_name
        ++ "/jobs/notify-next".toList).take (maxLen - 1)
      = "$aws/things/".toList ++ s.config.thing_name ++ "/jobs/notify-next".toList :=
    List.take_of_length_le (by rw [hNlen]; omega)
  have htakeJ : ("$aws/things/".toList ++ s.config.thing_name
        ++ "/jobs/".toList).take (maxLen - 1)
      = "$aws/things/".toList ++ s.config.thing_name ++ "/jobs/".toList :=
    List.take_of_length_le (by rw [hJlen]; omega)
  have hnoshadow : ("$aws/things/".toList ++ s.config.thing_name
        ++ "/shadow/".toList).isPrefixOf
      (("$aws/things/".toList ++ s.config.thing_name ++ "/jobs/".toList)
        ++ "job-7/update/rejected".toList) = false := by
    have key : ¬ (("/shadow/".toList : List Char)
        <+: "/jobs/".toList ++ "job-7/update/rejected".toList) := by decide
    rw [Bool.eq_false_iff]
    intro hpf
    rw [List.isPrefixOf_iff_prefix] at hpf
    rw [List.append_assoc ("$aws/things/".toList ++ s.config.thing_name)
      ("/jobs/".toList) ("job-7/update/rejected".toList)] at hpf
    exact key ((List.prefix_append_right_inj _).mp hpf)
  have hnotify : ((("$aws/things/".toList ++ s.config.thing_name ++ "/jobs/".toList)
        ++ "job-7/update/rejected".toList)
      == ("$aws/things/".toList ++ s.config.thing_name
        ++ "/jobs/notify-next".toList)) = false := by
    have key2 : ¬ (("/jobs/".toList ++ "job-7/update/rejected".toList : List Char)
        = "/jobs/notify-next".toList) := by decide
    rw [beq_eq_false_iff_ne]
    intro heq
    rw [List.append_assoc ("$aws/things/".toList ++ s.config.thing_name)
      ("/jobs/".toList) ("job-7/update/rejected".toList)] at heq
    exact key2 (List.append_cancel_left heq)
  have hlt : ("$aws/things/".toList ++ s.config.thing_name ++ "/jobs/".toList).length
      < (("$aws/things/".toList ++ s.config.thing_name ++ "/jobs/".toList)
          ++ "job-7/update/rejected".toList).length := by
    have h4 := List.length_append
      ("$aws/things/".toList ++ s.config.thing_name ++ "/jobs/".toList)
      ("job-7/update/rejected".toList)
    have h3 : ("job-7/update/rejected".toList : List Char).length = 21 := by decide
    omega
  have hpref : ("$aws/things/".toList ++ s.config.thing_name
        ++ "/jobs/".toList).isPrefixOf
      (("$aws/things/".toList ++ s.config.thing_name ++ "/jobs/".toList)
        ++ "job-7/update/rejected".toList) = true := by
    rw [List.isPrefixOf_iff_prefix]
    exact List.prefix_append _ _
  rw [htop]
  simp only [HandleData, htakeP, htakeN, htakeJ, hnoshadow, Bool.and_false,
    Bool.false_eq_true, if_false, hnotify, decide_eq_true hlt, hpref, Bool.and_self,
    if_true, List.drop_left, hcb2]
  rfl

/-- Claim C6, as stated, is false on the code: for thing name `t1` and topic
`$aws/things/t1/shadow/update/accepted`, `HandleData` invokes the shadow
handler with subtype `accepted` (line 394 assigns the text after `update/`),
not with subtype `update` as the claim states. -/
theorem C6_routing_counterexample :
    HandleData 128 routeState "$aws/things/t1/shadow/update/accepted".toList
        "PAY".toList
      = RouteResult.shadowUpdate "accepted".toList "PAY".toList ∧
    RouteResult.shadowUpdate "accepted".toList "PAY".toList
      ≠ RouteResult.shadowUpdate "update".toList "PAY".toList := by
  constructor
  · decide
  · decide

/-- Claim C6 (amended): for any configured thing name `T`, an inbound message
on `$aws/things/T/shadow/update/accepted` invokes the registered shadow
handler with subtype `accepted` and the payload forwarded unmodified, and an
inbound message on `$aws/things/T/jobs/job-7/update/rejected` invokes the
registered jobs handler with job id `job-7` and status `REJECTED`. -/
theorem C6_routing_amended (maxLen : Nat) (s : ClientState) (payload : List Char)
    (hcb1 : s.shadow_update_cb = true) (hcb2 : s.job_notify_cb = true)
    (hlen : s.config.thing_name.length + 40 ≤ maxLen) :
    HandleData maxLen s ("$aws/things/".toList ++ s.config.thing_name
        ++ "/shadow/update/accepted".toList) payload
      = RouteResult.shadowUpdate "accepted".toList payload ∧
    HandleData maxLen s ("$aws/things/".toList ++ s.config.thing_name
        ++ "/jobs/job-7/update/rejected".toList) payload
      = RouteResult.jobNotify "job-7".toList "REJECTED".toList payload :=
  ⟨HandleData_shadow_update_accepted maxLen s payload hcb1 hlen,
    HandleData_jobs_update_rejected maxLen s payload hcb2 hlen⟩

/-- Witness for `C6_routing_amended` at thing name `t1`. -/
theorem C6_routing_amended_witness :
    HandleData 128 routeState ("$aws/things/".toList ++ routeState.config.thing_name
        ++ "/shadow/update/accepted".toList) "PAY".toList
      = RouteResult.shadowUpdate "accepted".toList "PAY".toList ∧
    HandleData 128 routeState ("$aws/things/".toList ++ routeState.config.thing_name
        ++ "/jobs/job-7/update/rejected".toList) "PAY".toList
      = RouteResult.jobNotify "job-7".toList "REJECTED".toList "PAY".toList :=
  C6_routing_amended 128 routeState "PAY".toList rfl rfl (by decide)

/-- Claim C8: a second `Subscribe` with the same filter updates the existing
entry in place — same slot index, QoS and handler replaced, topic and active
flag intact — without creating a second entry: every other slot is untouched
and the subscription count after the second call equals the count after the
first. -/
theorem C8_resubscribe_same_filter_updates_in_place (maxLen : Nat) (s : ClientState)
    (f : List Char) (q1 q2 : Int) (cb1 cb2 : Option Nat) (ok1 ok2 : Bool)
    (hinit : s.initialized = true) (hlen : f.length < maxLen)
    (hroom : firstIdx (fun sub => sub.active && sub.topic == f) s.subscriptions ≠ none
      ∨ firstIdx (fun sub => !sub.active) s.subscriptions ≠ none) :
    ∃ (i : Nat) (sub1 : Subscription) (p : Bool),
      (Subscribe maxLen s f q1 cb1 ok1).2.subscriptions[i]? = some sub1 ∧
      sub1.active = true ∧ sub1.topic = f ∧
      (Subscribe maxLen (Subscribe maxLen s f q1 cb1 ok1).2
          f q2 cb2 ok2).2.subscriptions[i]?
        = some { sub1 with qos := q2, callback := cb2, pending_subscribe := p } ∧
      (∀ j, j ≠ i →
        (Subscribe maxLen (Subscribe maxLen s f q1 cb1 ok1).2
            f q2 cb2 ok2).2.subscriptions[j]?
          = (Subscribe maxLen s f q1 cb1 ok1).2.subscriptions[j]?) ∧
      (Subscribe maxLen (Subscribe maxLen s f q1 cb1 ok1).2
          f q2 cb2 ok2).2.active_subscription_count
        = (Subscribe maxLen s f q1 cb1 ok1).2.active_subscription_count ∧
      (Subscribe maxLen (Subscribe maxLen s f q1 cb1 ok1).2
          f q2 cb2 ok2).2.subscriptions.length
        = (Subscribe maxLen s f q1 cb1 ok1).2.subscriptions.length := by
  set s1 := (Subscribe maxLen s f q1 cb1 ok1).2 with hs1
  cases hex : firstIdx (fun sub => sub.active && sub.topic == f) s.subscriptions with
  | some t =>
    have h1 := Subscribe_found maxLen s f q1 cb1 ok1 t hinit hlen hex
    obtain ⟨x, hx, hpx, hpre⟩ := firstIdx_spec _ _ _ hex
    have hs1eq : s1 = { s with
        subscriptions := modifySlot s.subscriptions t (fun sub =>
          { sub with
            qos := q1, callback := cb1,
            pending_subscribe := !(s.connected && s.client_handle && ok1) }) } := by
      rw [hs1, h1]
    have hxact : x.active = true ∧ (x.topic == f) = true := by
      simpa [Bool.and_eq_true] using hpx
    have hxtopic : x.topic = f := eq_of_beq hxact.2
    have hslot1 : s1.subscriptions[t]? = some { x with
        qos := q1, callback := cb1,
        pending_subscribe := !(s.connected && s.client_handle && ok1) } := by
      rw [hs1eq]
      exact modifySlot_getElem_self _ _ _ _ hx
    have hex2 : firstIdx (fun sub => sub.active && sub.topic == f) s1.subscriptions
        = some t := by
      apply firstIdx_eq_some _ _ t _ hslot1
      · simp [hxact.1, hxtopic]
      · intro j hj y hy
        rw [hs1eq, modifySlot_getElem_ne _ _ _ _ (by omega)] at hy
        exact hpre j hj y hy
    have h2 := Subscribe_found maxLen s1 f q2 cb2 ok2 t
      (by rw [hs1eq]; exact hinit) hlen hex2
    have hs2eq : (Subscribe maxLen s1 f q2 cb2 ok2).2 = { s1 with
        subscriptions := modifySlot s1.subscriptions t (fun sub =>
          { sub with
            qos := q2, callback := cb2,
            pending_subscribe := !(s1.connected && s1.client_handle && ok2) }) } := by
      rw [h2]
    refine ⟨t, _, !(s1.connected && s1.client_handle && ok2),
      hslot1, hxact.1, hxtopic, ?_, ?_, ?_, ?_⟩
    · rw [hs2eq]
      exact modifySlot_getElem_self _ _ _ _ hslot1
    · intro j hj
      rw [hs2eq]
      exact modifySlot_getElem_ne _ _ _ _ hj
    · rw [hs2eq]
    · rw [hs2eq]
      exact modifySlot_length _ _ _
  | none =>
    have hav : firstIdx (fun sub => !sub.active) s.subscriptions ≠ none := by
      rcases hroom with h | h
      · exact (h hex).elim
      · exact h
    obtain ⟨a, hava⟩ : ∃ a, firstIdx (fun sub => !sub.active) s.subscriptions
        = some a := by
      cases hv : firstIdx (fun sub => !sub.active) s.subscriptions with
      | none => exact (hav hv).elim
      | some a => exact ⟨a, rfl⟩
    have h1 := Subscribe_fresh maxLen s f q1 cb1 ok1 a hinit hlen hex hava
    obtain ⟨y, hy, hpy, hprey⟩ := firstIdx_spec _ _ _ hava
    have hs1eq : s1 = { s with
        subscriptions := modifySlot s.subscriptions a (fun sub =>
          { sub with
            qos := q1, callback := cb1,
            pending_subscribe := !(s.connected && s.client_handle && ok1),
            topic := f.take (maxLen - 1), active := true }),
        active_subscription_count := s.active_subscription_count + 1 } := by
      rw [hs1, h1]
    have htake : f.take (maxLen - 1) = f := List.take_of_length_le (by omega)
    have hslot1 : s1.subscriptions[a]? = some { y with
        qos := q1, callback := cb1,
        pending_subscribe := !(s.connected && s.client_handle && ok1),
        topic := f.take (maxLen - 1), active := true } := by
      rw [hs1eq]
      exact modifySlot_getElem_self _ _ _ _ hy
    have hex2 : firstIdx (fun sub => sub.active && sub.topic == f) s1.subscriptions
        = some a := by
      apply firstIdx_eq_some _ _ a _ hslot1
      · simp [htake]
      · intro j hj z hz
        rw [hs1eq, modifySlot_getElem_ne _ _ _ _ (by omega)] at hz
        exact firstIdx_none_spec _ _ hex j z hz
    have h2 := Subscribe_found maxLen s1 f q2 cb2 ok2 a
      (by rw [hs1eq]; exact hinit) hlen hex2
    have hs2eq : (Subscribe maxLen s1 f q2 cb2 ok2).2 = { s1 with
        subscriptions := modifySlot s1.subscriptions a (fun sub =>
          { sub with
            qos := q2, callback := cb2,
            pending_subscribe := !(s1.connected && s1.client_handle && ok2) }) } := by
      rw [h2]
    refine ⟨a, _, !(s1.connected && s1.client_handle && ok2),
      hslot1, rfl, htake, ?_, ?_, ?_, ?_⟩
    · rw [hs2eq]
      exact modifySlot_getElem_self _ _ _ _ hslot1
    · intro j hj
      rw [hs2eq]
      exact modifySlot_getElem_ne _ _ _ _ hj
    · rw [hs2eq]
    · rw [hs2eq]
      exact modifySlot_length _ _ _

/-- Witness for `C8_resubscribe_same_filter_updates_in_place`: a connected
client with two free slots receives the same filter twice with different
handlers. -/
theorem C8_resubscribe_same_filter_updates_in_place_witness :
    ∃ (i : Nat) (sub1 : Subscription) (p : Bool),
      (Subscribe 128 connectedState "a/b".toList 1 (some 7) true).2.subscriptions[i]?
        = some sub1 ∧
      sub1.active = true ∧ sub1.topic = "a/b".toList ∧
      (Subscribe 128 (Subscribe 128 connectedState "a/b".toList 1 (some 7) true).2
          "a/b".toList 0 (some 9) true).2.subscriptions[i]?
        = some { sub1 with qos := 0, callback := some 9, pending_subscribe := p } ∧
      (∀ j, j ≠ i →
        (Subscribe 128 (Subscribe 128 connectedState "a/b".toList 1 (some 7) true).2
            "a/b".toList 0 (some 9) true).2.subscriptions[j]?
          = (Subscribe 128 connectedState "a/b".toList 1
              (some 7) true).2.subscriptions[j]?) ∧
      (Subscribe 128 (Subscribe 128 connectedState "a/b".toList 1 (some 7) true).2
          "a/b".toList 0 (some 9) true).2.active_subscription_count
        = (Subscribe 128 connectedState "a/b".toList 1
            (some 7) true).2.active_subscription_count ∧
      (Subscribe 128 (Subscribe 128 connectedState "a/b".toList 1 (some 7) true).2
          "a/b".toList 0 (some 9) true).2.subscriptions.length
        = (Subscribe 128 connectedState "a/b".toList 1
            (some 7) true).2.subscriptions.length :=
  C8_resubscribe_same_filter_updates_in_place 128 connectedState "a/b".toList
    1 0 (some 7) (some 9) true true rfl (by decide) (Or.inr (by decide))

/-- Claim C4: once `Disconnect()` has been called on an initialized client,
every subsequent `Connect()` call returns false (and changes nothing), no
matter what interleaving of API calls, timer ticks and transport events
happens in between: `Disconnect` latches `disconnect_requested_`, `Connect`
is rejected at line 125 before reaching the clearing statement at line 131,
`Initialize` returns early on an initialized client, and `HandleMqttEvent`
drops every event while the flag is set. -/
theorem C4_connect_rejected_forever (maxLen : Nat) (s : ClientState)
    (hinit : s.initialized = true)
    (hw : s.timer_armed = true → s.reconnect_timer_handle = true)
    (ops : List Op) (a b c : Bool) :
    Connect (run maxLen (Disconnect s) ops) a b c
      = (false, run maxLen (Disconnect s) ops) :=
  Connect_latched _ a b c (run_latched maxLen _ ops (Disconnect_latched s hinit hw))

/-- Witness for `C4_connect_rejected_forever`: after `Disconnect` on a
connected client, a later `Connect` attempt, timer tick and connected event
still leave every further `Connect` rejected. -/
theorem C4_connect_rejected_forever_witness :
    Connect (run 128 (Disconnect connectedState)
        [Op.opConnect true true true, Op.timerFire true true true,
          Op.transport (TransportEvent.evConnected (fun _ => true))]) true true true
      = (false, run 128 (Disconnect connectedState)
          [Op.opConnect true true true, Op.timerFire true true true,
            Op.transport (TransportEvent.evConnected (fun _ => true))]) :=
  C4_connect_rejected_forever 128 connectedState rfl (by decide)
    [Op.opConnect true true true, Op.timerFire true true true,
      Op.transport (TransportEvent.evConnected (fun _ => true))] true true true

/-- Claim C5: the client owns a single one-shot reconnect timer, so at most
one reconnect timer is armed at any point of any run (`ScheduleReconnect`
stops it before re-arming); and once `Disconnect()` has run, the timer stays
disarmed for the rest of the run, and a timer tick that still fires calls
`Connect`, which finds the latched disconnect flag, performs no transport
`Start` call and returns false. -/
theorem C5_single_timer_disconnect_suppresses_tick (maxLen : Nat)
    (s s' : ClientState) (hinit : s.initialized = true)
    (hw : s.timer_armed = true → s.reconnect_timer_handle = true)
    (pre ops' : List Op) (a b c : Bool) :
    armedCount (run maxLen s' ops') ≤ 1 ∧
    armedCount (run maxLen (Disconnect s) pre) = 0 ∧
    (stepOp maxLen (run maxLen (Disconnect s) pre) (.timerFire a b c)).startCalls
      = (run maxLen (Disconnect s) pre).startCalls ∧
    (Connect { run maxLen (Disconnect s) pre with timer_armed := false } a b c).1
      = false := by
  have hl := run_latched maxLen _ pre (Disconnect_latched s hinit hw)
  obtain ⟨h1, h2, h3, h4, h5⟩ := hl
  have hc := Connect_latched { run maxLen (Disconnect s) pre with timer_armed := false }
    a b c ⟨h1, h2, h3, h4, rfl⟩
  refine ⟨?_, ?_, ?_, ?_⟩
  · unfold armedCount
    split <;> omega
  · unfold armedCount
    rw [h5]
    rfl
  · show (Connect { run maxLen (Disconnect s) pre with timer_armed := false } a b c).2.startCalls
      = (run maxLen (Disconnect s) pre).startCalls
    rw [hc]
  · rw [hc]

/-- Witness for `C5_single_timer_disconnect_suppresses_tick` on a client with
an armed timer at the moment `Disconnect` is called. -/
theorem C5_single_timer_disconnect_suppresses_tick_witness :
    armedCount (run 128 freshState []) ≤ 1 ∧
    armedCount (run 128 (Disconnect { connectedState with
      timer_armed := true, reconnect_timer_handle := true })
        [Op.transport (TransportEvent.evDisconnected true true)]) = 0 ∧
    (stepOp 128 (run 128 (Disconnect { connectedState with
      timer_armed := true, reconnect_timer_handle := true })
        [Op.transport (TransportEvent.evDisconnected true true)])
        (.timerFire true true true)).startCalls
      = (run 128 (Disconnect { connectedState with
          timer_armed := true, reconnect_timer_handle := true })
          [Op.transport (TransportEvent.evDisconnected true true)]).startCalls ∧
    (Connect { run 128 (Disconnect { connectedState with
        timer_armed := true, reconnect_timer_handle := true })
        [Op.transport (TransportEvent.evDisconnected true true)] with
        timer_armed := false } true true true).1 = false :=
  C5_single_timer_disconnect_suppresses_tick 128
    { connectedState with timer_armed := true, reconnect_timer_handle := true }
    freshState rfl (by decide)
    [Op.transport (TransportEvent.evDisconnected true true)] [] true true true

/-- Claim C9, as stated, is false on the code in two ways: `Initialize` on an
already-initialized client returns success (line 44), and a zero port passes
validation (only the three string fields and the three PEM pointers are
checked, lines 46-47). -/
theorem C9_initialize_counterexample :
    (Initialize cfgA { freshState with initialized := true }).1 = true ∧
    (Initialize { cfgA with port := 0 } freshState).1 = true := by
  constructor
  · decide
  · decide

/-- Claim C9 (amended): `Initialize` returns success and changes nothing when
the client is already initialized; otherwise it returns an error exactly when
a required string field is empty or a credential reference is missing (the
port is not validated); on success it stores the config by value, marks the
client initialized, clears the disconnect flag, and touches neither the
transport handle nor the transport `Start` counter. -/
theorem C9_initialize_amended (cfg : MqttConfig) (s : ClientState) :
    (s.initialized = true → Initialize cfg s = (true, s)) ∧
    (s.initialized = false →
      (cfg.aws_endpoint.isEmpty || cfg.client_id.isEmpty || cfg.thing_name.isEmpty
        || !cfg.root_ca_pem || !cfg.device_cert_pem || !cfg.private_key_pem) = true →
      Initialize cfg s = (false, s)) ∧
    (s.initialized = false →
      (cfg.aws_endpoint.isEmpty || cfg.client_id.isEmpty || cfg.thing_name.isEmpty
        || !cfg.root_ca_pem || !cfg.device_cert_pem || !cfg.private_key_pem) = false →
      Initialize cfg s
        = (true, { s with
            config := cfg, initialized := true, disconnect_requested := false })) ∧
    (Initialize cfg s).2.client_handle = s.client_handle ∧
    (Initialize cfg s).2.startCalls = s.startCalls := by
  unfold Initialize
  refine ⟨fun h => by simp [h], fun h hv => by simp [h, hv], fun h hv => by simp [h, hv], ?_, ?_⟩
  · split
    · rfl
    · split <;> rfl
  · split
    · rfl
    · split <;> rfl

/-- Witness for `C9_initialize_amended`: a fresh client accepts `cfgA` and
stores it. -/
theorem C9_initialize_amended_witness :
    Initialize cfgA freshState
      = (true, { freshState with
          config := cfgA, initialized := true, disconnect_requested := false }) :=
  (C9_initialize_amended cfgA freshState).2.2.1 rfl rfl

end AwsIot
